import Mathlib

/-!
Shallow embedding of the brep-manipulation service.

The repository has three layers:
* `brep_operations.py` — class `BrepOperations`, thin wrappers around the
  OpenCASCADE geometric kernel (decode/encode STEP text, resolve faces and
  edges by ordinal id, prism extrusion, fillet, chamfer, thick-solid offset,
  boolean set operations, topology measurement);
* `manipulation_service.py` — class `BrepManipulationService`, which decodes
  the STEP text, resolves the referenced element, reads parameters with
  defaults and invokes the corresponding `BrepOperations` method;
* `app.py` — the `manipulate_brep` endpoint, which screens empty STEP
  content, dispatches on `operation_type`, and builds the JSON response.

The geometric kernel itself (OpenCASCADE) is outside the repository; it is
modelled here as an abstract record `Kernel` of the operations the source
calls, each fallible kernel constructor returning `Option` (`none` models
"builder reports not done" or a raise inside the kernel call).  Python
exceptions are modelled by `Except Exc`; a raised exception carries its
message string.  Shapes are modelled by their topological data as far as the
orchestration code observes it: a list of face tokens and a list of edges,
an edge carrying its vertex traversal.
-/

/-- A 3-component vector (direction), with rational coordinates. -/
abbrev Vec := Rat × Rat × Rat

/-- A topological edge, as observed by the orchestration layer: the list of
vertices produced by exploring the edge (`TopExp_Explorer(edge, TopAbs_VERTEX)`). -/
structure Edge where
  vertices : List Nat
deriving DecidableEq

/-- A shape handle, as observed by the orchestration layer: its face list and
edge list in the kernel's deterministic traversal order. -/
structure Shape where
  faces : List Nat
  edges : List Edge
deriving DecidableEq

/-- A Python exception, carrying its message (`str(e)`). -/
structure Exc where
  msg : String
deriving DecidableEq

deriving instance DecidableEq for Except

/-- The external geometric kernel collaborator (OpenCASCADE), modelled from
the spec's kernel contract: decode/encode serialized-solid text, vector
normalization and scaling, prism extrusion from a face, boolean
fuse/cut/common, fillet and chamfer of an edge, thick-solid offset removing
designated faces, face/edge measurement, vertex counting.  Fallible
constructors return `none` when the builder reports not done or raises. -/
structure Kernel where
  decode : String → Option Shape
  encode : Shape → Option String
  normalize : Vec → Vec
  scaleVec : Vec → Rat → Vec
  makePrism : Nat → Vec → Option Shape
  fuse : Shape → Shape → Option Shape
  cut : Shape → Shape → Option Shape
  common : Shape → Shape → Option Shape
  fillet : Shape → Edge → Rat → Option Shape
  chamfer : Shape → Edge → Rat → Option Shape
  thickSolid : Shape → List Nat → Rat → Rat → Option Shape
  faceArea : Nat → Option Rat
  faceCenter : Nat → Option Vec
  edgeLength : Edge → Option Rat
  edgeCenter : Edge → Option Vec
  numVertices : Shape → Nat

/-- A JSON parameter value. -/
inductive PVal where
  | int (i : Int)
  | num (q : Rat)
  | bool (b : Bool)
  | vec (v : Vec)
  | str (s : String)
deriving DecidableEq

/-- The `parameters` mapping of a request (a JSON object). -/
abbrev Params := List (String × PVal)

/-- Model of `parameters.get(key)` for an integer id (missing key gives `None`). -/
def getInt? (params : Params) (key : String) : Option Int :=
  match params.lookup key with
  | some (.int i) => some i
  | _ => none

/-- Model of `parameters.get(key)` for a string value (missing key gives `None`). -/
def getStr? (params : Params) (key : String) : Option String :=
  match params.lookup key with
  | some (.str s) => some s
  | _ => none

/-- Model of `parameters.get(key, default)` for a numeric value. -/
def getRat (params : Params) (key : String) (dflt : Rat) : Rat :=
  match params.lookup key with
  | some (.num q) => q
  | some (.int i) => (i : Rat)
  | _ => dflt

/-- Model of `parameters.get(key, default)` for a vector value. -/
def getVec (params : Params) (key : String) (dflt : Vec) : Vec :=
  match params.lookup key with
  | some (.vec v) => v
  | _ => dflt

/-- Model of `parameters.get(key, default)` for a boolean value. -/
def getBool (params : Params) (key : String) (dflt : Bool) : Bool :=
  match params.lookup key with
  | some (.bool b) => b
  | _ => dflt

namespace BrepOperations

/-- `self.tolerance = 1e-6` in `BrepOperations.__init__`. -/
def tolerance : Rat := 1 / 1000000

/-- `BrepOperations.load_step_from_string`: write the content to a scratch
file and read it through the kernel's STEP reader.  Passing `None` (a missing
secondary solid) fails before the kernel is reached, because
`temp_file.write(None)` raises a `TypeError`; a status other than done raises
`ValueError("Failed to read STEP file content")`. -/
def load_step_from_string (K : Kernel) (step_content : Option String) : Except Exc Shape :=
  match step_content with
  | none => .error { msg := "write() argument must be str, not None" }
  | some s =>
    match K.decode s with
    | none => .error { msg := "Failed to read STEP file content" }
    | some shape => .ok shape

/-- `BrepOperations.shape_to_step_string`: encode a shape back to STEP text;
a status other than done raises `ValueError("Failed to write STEP file")`. -/
def shape_to_step_string (K : Kernel) (shape : Shape) : Except Exc String :=
  match K.encode shape with
  | none => .error { msg := "Failed to write STEP file" }
  | some s => .ok s

/-- The f-string of the out-of-range error in `get_face_by_id`:
`f"Face ID {face_id} out of range (0-{len(faces)-1})"`. -/
def faceRangeMsg (i : Int) (n : Nat) : String :=
  "Face ID " ++ toString i ++ " out of range (0-" ++ toString ((n : Int) - 1) ++ ")"

/-- The f-string of the out-of-range error in `get_edge_by_id`:
`f"Edge ID {edge_id} out of range (0-{len(edges)-1})"`. -/
def edgeRangeMsg (i : Int) (n : Nat) : String :=
  "Edge ID " ++ toString i ++ " out of range (0-" ++ toString ((n : Int) - 1) ++ ")"

/-- `BrepOperations.get_face_by_id`: collect the faces of the shape in
traversal order, range-check the id, and index.  A `None` id (missing
`face_id` parameter) raises a `TypeError` at the comparison `face_id < 0`. -/
def get_face_by_id (shape : Shape) (face_id : Option Int) : Except Exc Nat :=
  match face_id with
  | none => .error { msg := "TypeError: comparison of NoneType and int" }
  | some i =>
    if h : i < 0 ∨ (shape.faces.length : Int) ≤ i then
      .error { msg := faceRangeMsg i shape.faces.length }
    else
      .ok (shape.faces.get ⟨i.toNat, by omega⟩)

/-- `BrepOperations.get_edge_by_id`: collect the edges of the shape in
traversal order, range-check the id, and index. -/
def get_edge_by_id (shape : Shape) (edge_id : Option Int) : Except Exc Edge :=
  match edge_id with
  | none => .error { msg := "TypeError: comparison of NoneType and int" }
  | some i =>
    if h : i < 0 ∨ (shape.edges.length : Int) ≤ i then
      .error { msg := edgeRangeMsg i shape.edges.length }
    else
      .ok (shape.edges.get ⟨i.toNat, by omega⟩)

/-- `BrepOperations.extend_face`: normalize the direction vector, scale it by
the distance, build a prism from the face along the vector, then fuse the
prism with the original shape.  Raises if the prism or the fuse builder
reports not done. -/
def extend_face (K : Kernel) (shape : Shape) (face : Nat) (distance : Rat)
    (direction : Vec) : Except Exc Shape :=
  let vec := K.scaleVec (K.normalize direction) distance
  match K.makePrism face vec with
  | none => .error { msg := "Failed to create prism from face" }
  | some extruded_shape =>
    match K.fuse shape extruded_shape with
    | none => .error { msg := "Failed to fuse extruded face with original shape" }
    | some s => .ok s

/-- `BrepOperations.extend_edge`: collects the edge's vertices, raises when
there are fewer than 2, and otherwise returns the original shape unmodified
(the documented simplified no-op); `length` and `both_directions` are unused. -/
def extend_edge (shape : Shape) (edge : Edge) (length : Rat)
    (both_directions : Bool) : Except Exc Shape :=
  let vertices := edge.vertices
  if vertices.length < 2 then
    .error { msg := "Edge must have at least 2 vertices" }
  else
    .ok shape

/-- `BrepOperations.extrude_face`: delegates to `extend_face`. -/
def extrude_face (K : Kernel) (shape : Shape) (face : Nat) (distance : Rat)
    (direction : Vec) : Except Exc Shape :=
  extend_face K shape face distance direction

/-- `BrepOperations.offset_face`: attempt a thick-solid offset removing the
target face; on any failure of the kernel step, the surrounding except block
returns the original shape instead of raising. -/
def offset_face (K : Kernel) (shape : Shape) (face : Nat) (offset : Rat) : Shape :=
  let faces_to_remove := [face]
  match K.thickSolid shape faces_to_remove offset tolerance with
  | none => shape
  | some s => s

/-- `BrepOperations.fillet_edge`: apply a fillet of the given radius to the
edge; raises `ValueError("Failed to create fillet")` if the builder reports
not done. -/
def fillet_edge (K : Kernel) (shape : Shape) (edge : Edge) (radius : Rat) :
    Except Exc Shape :=
  match K.fillet shape edge radius with
  | none => .error { msg := "Failed to create fillet" }
  | some s => .ok s

/-- `BrepOperations.chamfer_edge`: apply a chamfer of the given distance to
the edge; raises `ValueError("Failed to create chamfer")` if the builder
reports not done. -/
def chamfer_edge (K : Kernel) (shape : Shape) (edge : Edge) (distance : Rat) :
    Except Exc Shape :=
  match K.chamfer shape edge distance with
  | none => .error { msg := "Failed to create chamfer" }
  | some s => .ok s

/-- `BrepOperations.boolean_union`. -/
def boolean_union (K : Kernel) (shape1 shape2 : Shape) : Except Exc Shape :=
  match K.fuse shape1 shape2 with
  | none => .error { msg := "Failed to perform boolean union" }
  | some s => .ok s

/-- `BrepOperations.boolean_difference`. -/
def boolean_difference (K : Kernel) (shape1 shape2 : Shape) : Except Exc Shape :=
  match K.cut shape1 shape2 with
  | none => .error { msg := "Failed to perform boolean difference" }
  | some s => .ok s

/-- `BrepOperations.boolean_intersection`. -/
def boolean_intersection (K : Kernel) (shape1 shape2 : Shape) : Except Exc Shape :=
  match K.common shape1 shape2 with
  | none => .error { msg := "Failed to perform boolean intersection" }
  | some s => .ok s

/-- One entry of the `faces` list returned by `get_detailed_topology_info`. -/
structure FaceInfo where
  id : Nat
  area : Rat
  center : Vec
deriving DecidableEq

/-- One entry of the `edges` list returned by `get_detailed_topology_info`. -/
structure EdgeInfo where
  id : Nat
  length : Rat
  center : Vec
deriving DecidableEq

/-- The dictionary returned by `get_detailed_topology_info`. -/
structure TopologyInfo where
  faces : List FaceInfo
  edges : List EdgeInfo
  total_faces : Nat
  total_edges : Nat
  total_vertices : Nat
deriving DecidableEq

/-- `BrepOperations._get_face_area`: the measurement call, returning `0.0`
when the kernel measurement raises. -/
def get_face_area_m (K : Kernel) (face : Nat) : Rat :=
  match K.faceArea face with
  | none => 0
  | some a => a

/-- `BrepOperations._get_face_center`: the measurement call, returning
`[0.0, 0.0, 0.0]` when the kernel measurement raises. -/
def get_face_center_m (K : Kernel) (face : Nat) : Vec :=
  match K.faceCenter face with
  | none => (0, 0, 0)
  | some c => c

/-- `BrepOperations._get_edge_length`: the measurement call, returning `0.0`
when the kernel measurement raises. -/
def get_edge_length_m (K : Kernel) (edge : Edge) : Rat :=
  match K.edgeLength edge with
  | none => 0
  | some a => a

/-- `BrepOperations._get_edge_center`: the measurement call, returning
`[0.0, 0.0, 0.0]` when the kernel measurement raises. -/
def get_edge_center_m (K : Kernel) (edge : Edge) : Vec :=
  match K.edgeCenter edge with
  | none => (0, 0, 0)
  | some c => c

/-- The dictionary literal built by `get_detailed_topology_info` from a
decoded shape: `enumerate` the faces and edges, measure each one, and attach
the enumeration position as `id`. -/
def mkTopologyInfo (K : Kernel) (shape : Shape) : TopologyInfo :=
  { faces := shape.faces.enum.map
      (fun p => { id := p.1, area := get_face_area_m K p.2, center := get_face_center_m K p.2 })
    edges := shape.edges.enum.map
      (fun p => { id := p.1, length := get_edge_length_m K p.2, center := get_edge_center_m K p.2 })
    total_faces := shape.faces.length
    total_edges := shape.edges.length
    total_vertices := K.numVertices shape }

/-- `BrepOperations.get_detailed_topology_info`: decode the STEP text, then
build per-face and per-edge entries with enumeration ids and measurements. -/
def get_detailed_topology_info (K : Kernel) (step_content : String) :
    Except Exc TopologyInfo :=
  match load_step_from_string K (some step_content) with
  | .error e => .error e
  | .ok shape => .ok (mkTopologyInfo K shape)

end BrepOperations

namespace BrepManipulationService

/-- `BrepManipulationService.extend_face`: decode, resolve the face, read
`distance` (default `1.0`) and `direction` (default `[0, 0, 1]`), extend, and
re-encode. -/
def extend_face (K : Kernel) (step_content : String) (face_id : Option Int)
    (parameters : Params) : Except Exc String := do
  let shape ← BrepOperations.load_step_from_string K (some step_content)
  let face ← BrepOperations.get_face_by_id shape face_id
  let distance := getRat parameters "distance" 1
  let direction := getVec parameters "direction" (0, 0, 1)
  let modified_shape ← BrepOperations.extend_face K shape face distance direction
  BrepOperations.shape_to_step_string K modified_shape

/-- `BrepManipulationService.extend_edge`: decode, resolve the edge, read
`length` (default `1.0`) and `both_directions` (default `false`), extend, and
re-encode. -/
def extend_edge (K : Kernel) (step_content : String) (edge_id : Option Int)
    (parameters : Params) : Except Exc String := do
  let shape ← BrepOperations.load_step_from_string K (some step_content)
  let edge ← BrepOperations.get_edge_by_id shape edge_id
  let length := getRat parameters "length" 1
  let both_directions := getBool parameters "both_directions" false
  let modified_shape ← BrepOperations.extend_edge shape edge length both_directions
  BrepOperations.shape_to_step_string K modified_shape

/-- `BrepManipulationService.extrude_face`: decode, resolve the face, read
`distance` (default `1.0`) and `direction` (default `[0, 0, 1]`), extrude, and
re-encode. -/
def extrude_face (K : Kernel) (step_content : String) (face_id : Option Int)
    (parameters : Params) : Except Exc String := do
  let shape ← BrepOperations.load_step_from_string K (some step_content)
  let face ← BrepOperations.get_face_by_id shape face_id
  let distance := getRat parameters "distance" 1
  let direction := getVec parameters "direction" (0, 0, 1)
  let modified_shape ← BrepOperations.extrude_face K shape face distance direction
  BrepOperations.shape_to_step_string K modified_shape

/-- `BrepManipulationService.offset_face`: decode, resolve the face, read
`offset` (default `0.1`), offset (which never raises), and re-encode. -/
def offset_face (K : Kernel) (step_content : String) (face_id : Option Int)
    (parameters : Params) : Except Exc String := do
  let shape ← BrepOperations.load_step_from_string K (some step_content)
  let face ← BrepOperations.get_face_by_id shape face_id
  let offset := getRat parameters "offset" (1 / 10)
  let modified_shape := BrepOperations.offset_face K shape face offset
  BrepOperations.shape_to_step_string K modified_shape

/-- `BrepManipulationService.fillet_edge`: decode, resolve the edge, read
`radius` (default `0.1`), fillet, and re-encode. -/
def fillet_edge (K : Kernel) (step_content : String) (edge_id : Option Int)
    (parameters : Params) : Except Exc String := do
  let shape ← BrepOperations.load_step_from_string K (some step_content)
  let edge ← BrepOperations.get_edge_by_id shape edge_id
  let radius := getRat parameters "radius" (1 / 10)
  let modified_shape ← BrepOperations.fillet_edge K shape edge radius
  BrepOperations.shape_to_step_string K modified_shape

/-- `BrepManipulationService.chamfer_edge`: decode, resolve the edge, read
`distance` (default `0.1`), chamfer, and re-encode. -/
def chamfer_edge (K : Kernel) (step_content : String) (edge_id : Option Int)
    (parameters : Params) : Except Exc String := do
  let shape ← BrepOperations.load_step_from_string K (some step_content)
  let edge ← BrepOperations.get_edge_by_id shape edge_id
  let distance := getRat parameters "distance" (1 / 10)
  let modified_shape ← BrepOperations.chamfer_edge K shape edge distance
  BrepOperations.shape_to_step_string K modified_shape

/-- `BrepManipulationService.boolean_operation`: decode both solids (the
second may be `None`), select the set operation by name, and re-encode. -/
def boolean_operation (K : Kernel) (step_content1 : String)
    (step_content2 : Option String) (operation : String) : Except Exc String := do
  let shape1 ← BrepOperations.load_step_from_string K (some step_content1)
  let shape2 ← BrepOperations.load_step_from_string K step_content2
  let result ←
    if operation = "union" then BrepOperations.boolean_union K shape1 shape2
    else if operation = "difference" then BrepOperations.boolean_difference K shape1 shape2
    else if operation = "intersection" then BrepOperations.boolean_intersection K shape1 shape2
    else .error { msg := "Unknown boolean operation: " ++ operation }
  BrepOperations.shape_to_step_string K result

end BrepManipulationService

/-- The JSON response of the `manipulate_brep` endpoint: the success body,
the 400 client-input rejection, or the 500 body built in the except handler
(`error: str(e)`, `traceback: traceback.format_exc()`). -/
inductive Response where
  | ok (modified_step_content : String) (operation_applied : String) (parameters_used : Params)
  | clientError (error : String)
  | serverError (error : String) (tb : String)
deriving DecidableEq

/-- Whether a response is the 500 server-error body. -/
def Response.isServerError : Response → Bool
  | .serverError _ _ => true
  | _ => false

/-- Model of `traceback.format_exc()` at the except handler: the raw
execution trace of the exception being handled. -/
def pythonTraceback (e : Exc) : String :=
  "Traceback (most recent call last):" ++ e.msg

/-- Python truthiness of the `step_content` field: `None` and the empty
string are falsy. -/
def stepTruthy : Option String → Bool
  | none => false
  | some s => s != ""

/-- Outcome of the routing block of `manipulate_brep`: either the final
`else` (unknown operation type), a result string, or a raised exception. -/
inductive RouteResult where
  | unknown
  | okText (s : String)
  | exn (e : Exc)
deriving DecidableEq

/-- Lift a service-call outcome into a routing outcome. -/
def routeOf : Except Exc String → RouteResult
  | .ok s => .okText s
  | .error e => .exn e

/-- The `if/elif` dispatch chain of `manipulate_brep` in `app.py`, in source
order, passing each handler the element id or secondary solid text read from
`parameters`. -/
def route (K : Kernel) (operation_type : String) (step_content : String)
    (parameters : Params) : RouteResult :=
  if operation_type = "extend_face" then
    routeOf (BrepManipulationService.extend_face K step_content (getInt? parameters "face_id") parameters)
  else if operation_type = "extend_edge" then
    routeOf (BrepManipulationService.extend_edge K step_content (getInt? parameters "edge_id") parameters)
  else if operation_type = "extrude_face" then
    routeOf (BrepManipulationService.extrude_face K step_content (getInt? parameters "face_id") parameters)
  else if operation_type = "offset_face" then
    routeOf (BrepManipulationService.offset_face K step_content (getInt? parameters "face_id") parameters)
  else if operation_type = "boolean_union" then
    routeOf (BrepManipulationService.boolean_operation K step_content (getStr? parameters "other_step_content") "union")
  else if operation_type = "boolean_difference" then
    routeOf (BrepManipulationService.boolean_operation K step_content (getStr? parameters "other_step_content") "difference")
  else if operation_type = "boolean_intersection" then
    routeOf (BrepManipulationService.boolean_operation K step_content (getStr? parameters "other_step_content") "intersection")
  else if operation_type = "fillet_edge" then
    routeOf (BrepManipulationService.fillet_edge K step_content (getInt? parameters "edge_id") parameters)
  else if operation_type = "chamfer_edge" then
    routeOf (BrepManipulationService.chamfer_edge K step_content (getInt? parameters "edge_id") parameters)
  else
    .unknown

/-- The `manipulate_brep` endpoint of `app.py`: screen falsy STEP content,
dispatch, and build the response; the success body echoes the supplied
`parameters` mapping verbatim, the except handler echoes the exception
message together with the raw traceback. -/
def manipulate_brep (K : Kernel) (operation_type : String)
    (step_content : Option String) (parameters : Params) : Response :=
  if stepTruthy step_content then
    match route K operation_type (step_content.getD "") parameters with
    | .unknown => .clientError ("Unknown operation type: " ++ operation_type)
    | .okText s => .ok s operation_type parameters
    | .exn e => .serverError e.msg (pythonTraceback e)
  else
    .clientError "No STEP content provided"

/-- The operation kinds handled by the dispatch chain of `manipulate_brep`. -/
def declaredOperations : List String :=
  ["extend_face", "extend_edge", "extrude_face", "offset_face",
   "boolean_union", "boolean_difference", "boolean_intersection",
   "fillet_edge", "chamfer_edge"]

/-- The boolean operation kinds, which read a secondary solid text. -/
def booleanOperations : List String :=
  ["boolean_union", "boolean_difference", "boolean_intersection"]

/-! Concrete fixtures used to evaluate the embedding on closed inputs. -/

/-- A small concrete shape with two faces and two ordinary edges. -/
def cubeShape : Shape :=
  { faces := [10, 11], edges := [{ vertices := [0, 1] }, { vertices := [1, 2] }] }

/-- A concrete shape whose only edge has an empty vertex traversal (as a
closed kernel edge can have). -/
def degenShape : Shape :=
  { faces := [20], edges := [{ vertices := [] }] }

/-- A concrete kernel on which every construction succeeds except the
thick-solid offset: it decodes `"CUBE"` and `"DEGEN"`, encodes everything to
`"OUT"`, and reports every measurement as failed. -/
def kernelOK : Kernel :=
  { decode := fun s =>
      if s = "CUBE" then some cubeShape
      else if s = "DEGEN" then some degenShape
      else none
    encode := fun _ => some "OUT"
    normalize := fun v => v
    scaleVec := fun v _ => v
    makePrism := fun f _ => some { faces := [f], edges := [] }
    fuse := fun a b => some { faces := a.faces ++ b.faces, edges := a.edges ++ b.edges }
    cut := fun a _ => some a
    common := fun a _ => some a
    fillet := fun s _ _ => some s
    chamfer := fun s _ _ => some s
    thickSolid := fun _ _ _ _ => none
    faceArea := fun _ => none
    faceCenter := fun _ => none
    edgeLength := fun _ => none
    edgeCenter := fun _ => none
    numVertices := fun _ => 8 }

/-- `kernelOK` with a fillet builder that always reports not done. -/
def kernelFailFillet : Kernel := { kernelOK with fillet := fun _ _ _ => none }

/-- `kernelOK` with a decoder that always fails. -/
def kernelNoDecode : Kernel := { kernelOK with decode := fun _ => none }

/-- `kernelOK` with a thick-solid offset that succeeds with `degenShape`. -/
def kernelThickOK : Kernel := { kernelOK with thickSolid := fun _ _ _ _ => some degenShape }

/-! Claim theorems. -/

/-- C2: for every shape, resolved face, and offset value, if the kernel's
thick-solid offset fails then `offset_face` returns the original input shape
unchanged (and, being a total function, surfaces no error); if the offset
succeeds, the offset shape is returned. -/
theorem c2_offset_face_degrade (K : Kernel) (shape : Shape) (face : Nat) (offset : Rat) :
    (K.thickSolid shape [face] offset BrepOperations.tolerance = none →
      BrepOperations.offset_face K shape face offset = shape) ∧
    (∀ t, K.thickSolid shape [face] offset BrepOperations.tolerance = some t →
      BrepOperations.offset_face K shape face offset = t) := by
  constructor
  · intro h
    unfold BrepOperations.offset_face
    simp only [h]
  · intro t h
    unfold BrepOperations.offset_face
    simp only [h]

/-- C2 witness: on `kernelOK` the thick-solid offset always fails and
`offset_face` returns its input; on `kernelThickOK` it succeeds with
`degenShape` and `offset_face` returns that shape. -/
theorem c2_offset_face_degrade_witness :
    BrepOperations.offset_face kernelOK cubeShape 10 1 = cubeShape ∧
    BrepOperations.offset_face kernelThickOK cubeShape 10 1 = degenShape :=
  ⟨(c2_offset_face_degrade kernelOK cubeShape 10 1).1 rfl,
   (c2_offset_face_degrade kernelThickOK cubeShape 10 1).2 degenShape rfl⟩

/-- C8: `extrude_face` is an alias of `extend_face`: on every kernel, shape,
face, distance and direction the two return exactly the same result, both at
the `BrepOperations` layer and at the `BrepManipulationService` layer. -/
theorem c8_extrude_face_alias (K : Kernel) (shape : Shape) (face : Nat)
    (distance : Rat) (direction : Vec) (step_content : String)
    (face_id : Option Int) (parameters : Params) :
    BrepOperations.extrude_face K shape face distance direction =
      BrepOperations.extend_face K shape face distance direction ∧
    BrepManipulationService.extrude_face K step_content face_id parameters =
      BrepManipulationService.extend_face K step_content face_id parameters :=
  ⟨rfl, rfl⟩

/-- C9: `extend_face` normalizes the direction, scales it by the distance,
builds the extrusion prism from the face along that vector and fuses it with
the original shape; it succeeds exactly when both kernel steps succeed, and
fails (with a raised error) exactly when the prism construction or the fuse
reports not done. -/
theorem c9_extend_face_algorithm (K : Kernel) (shape : Shape) (face : Nat)
    (distance : Rat) (direction : Vec) :
    (∀ t, BrepOperations.extend_face K shape face distance direction = .ok t ↔
      ∃ p, K.makePrism face (K.scaleVec (K.normalize direction) distance) = some p ∧
        K.fuse shape p = some t) ∧
    ((∃ e, BrepOperations.extend_face K shape face distance direction = .error e) ↔
      (K.makePrism face (K.scaleVec (K.normalize direction) distance) = none ∨
       ∃ p, K.makePrism face (K.scaleVec (K.normalize direction) distance) = some p ∧
         K.fuse shape p = none)) := by
  unfold BrepOperations.extend_face
  cases hp : K.makePrism face (K.scaleVec (K.normalize direction) distance) with
  | none => simp [hp]
  | some p =>
    cases hf : K.fuse shape p with
    | none => simp [hp, hf]
    | some t => simp [hp, hf]

/-- C9 witness: on `kernelOK` both steps succeed and `extend_face` returns
the fused shape. -/
theorem c9_extend_face_algorithm_witness :
    BrepOperations.extend_face kernelOK cubeShape 10 1 (0, 0, 1) =
      .ok { faces := cubeShape.faces ++ [10], edges := cubeShape.edges } :=
  ((c9_extend_face_algorithm kernelOK cubeShape 10 1 (0, 0, 1)).1
      { faces := cubeShape.faces ++ [10], edges := cubeShape.edges }).mpr
    ⟨{ faces := [10], edges := [] }, rfl, rfl⟩

/-- Helper: a successful face resolution is exactly an in-range lookup. -/
theorem get_face_by_id_ok_iff (shape : Shape) (i : Int) (f : Nat) :
    BrepOperations.get_face_by_id shape (some i) = .ok f ↔
      0 ≤ i ∧ shape.faces[i.toNat]? = some f := by
  simp only [BrepOperations.get_face_by_id]
  split
  · next h =>
    constructor
    · intro hf; exact Except.noConfusion hf
    · rintro ⟨h0, hget⟩
      have hlt : i.toNat < shape.faces.length := (List.getElem?_eq_some_iff.mp hget).1
      omega
  · next h =>
    push_neg at h
    obtain ⟨h1, h2⟩ := h
    constructor
    · intro hf
      injection hf with hv
      refine ⟨by omega, ?_⟩
      rw [List.getElem?_eq_getElem (by omega)]
      rw [← hv, List.get_eq_getElem]
    · rintro ⟨h0, hget⟩
      obtain ⟨hlt, hv⟩ := List.getElem?_eq_some_iff.mp hget
      exact congrArg Except.ok (by rw [List.get_eq_getElem]; exact hv)

/-- Helper: a successful edge resolution is exactly an in-range lookup. -/
theorem get_edge_by_id_ok_iff (shape : Shape) (i : Int) (e : Edge) :
    BrepOperations.get_edge_by_id shape (some i) = .ok e ↔
      0 ≤ i ∧ shape.edges[i.toNat]? = some e := by
  simp only [BrepOperations.get_edge_by_id]
  split
  · next h =>
    constructor
    · intro hf; exact Except.noConfusion hf
    · rintro ⟨h0, hget⟩
      have hlt : i.toNat < shape.edges.length := (List.getElem?_eq_some_iff.mp hget).1
      omega
  · next h =>
    push_neg at h
    obtain ⟨h1, h2⟩ := h
    constructor
    · intro hf
      injection hf with hv
      refine ⟨by omega, ?_⟩
      rw [List.getElem?_eq_getElem (by omega)]
      rw [← hv, List.get_eq_getElem]
    · rintro ⟨h0, hget⟩
      obtain ⟨hlt, hv⟩ := List.getElem?_eq_some_iff.mp hget
      exact congrArg Except.ok (by rw [List.get_eq_getElem]; exact hv)

/-- Helper: an out-of-range face id produces the range-reporting error. -/
theorem get_face_by_id_out_of_range (shape : Shape) (i : Int)
    (h : i < 0 ∨ (shape.faces.length : Int) ≤ i) :
    BrepOperations.get_face_by_id shape (some i) =
      .error { msg := BrepOperations.faceRangeMsg i shape.faces.length } := by
  simp only [BrepOperations.get_face_by_id]
  rw [dif_pos h]

/-- Helper: an out-of-range edge id produces the range-reporting error. -/
theorem get_edge_by_id_out_of_range (shape : Shape) (i : Int)
    (h : i < 0 ∨ (shape.edges.length : Int) ≤ i) :
    BrepOperations.get_edge_by_id shape (some i) =
      .error { msg := BrepOperations.edgeRangeMsg i shape.edges.length } := by
  simp only [BrepOperations.get_edge_by_id]
  rw [dif_pos h]

/-- C3: for a shape with `N` faces, resolving face id `i` returns the element
at position `i` of the deterministic traversal when `0 ≤ i < N` (and, when
the traversal is duplicate-free, distinct ids resolve to distinct elements),
and an out-of-range id produces the error whose detail is the formatted
message reporting the valid range `0..N-1`; the same holds for edges. -/
theorem c3_ordinal_id_resolution (shape : Shape) (i j : Int) :
    ((∀ f, 0 ≤ i → shape.faces[i.toNat]? = some f →
        BrepOperations.get_face_by_id shape (some i) = .ok f) ∧
     (i < 0 ∨ (shape.faces.length : Int) ≤ i →
        BrepOperations.get_face_by_id shape (some i) =
          .error { msg := BrepOperations.faceRangeMsg i shape.faces.length }) ∧
     (shape.faces.Nodup → ∀ f g,
        BrepOperations.get_face_by_id shape (some i) = .ok f →
        BrepOperations.get_face_by_id shape (some j) = .ok g → f = g → i = j)) ∧
    ((∀ e, 0 ≤ i → shape.edges[i.toNat]? = some e →
        BrepOperations.get_edge_by_id shape (some i) = .ok e) ∧
     (i < 0 ∨ (shape.edges.length : Int) ≤ i →
        BrepOperations.get_edge_by_id shape (some i) =
          .error { msg := BrepOperations.edgeRangeMsg i shape.edges.length }) ∧
     (shape.edges.Nodup → ∀ e d,
        BrepOperations.get_edge_by_id shape (some i) = .ok e →
        BrepOperations.get_edge_by_id shape (some j) = .ok d → e = d → i = j)) := by
  refine ⟨⟨?_, ?_, ?_⟩, ?_, ?_, ?_⟩
  · intro f h0 hget
    exact (get_face_by_id_ok_iff shape i f).mpr ⟨h0, hget⟩
  · exact get_face_by_id_out_of_range shape i
  · intro hnd f g hf hg hfg
    obtain ⟨h0i, hgi⟩ := (get_face_by_id_ok_iff shape i f).mp hf
    obtain ⟨h0j, hgj⟩ := (get_face_by_id_ok_iff shape j g).mp hg
    obtain ⟨hlti, hvi⟩ := List.getElem?_eq_some_iff.mp hgi
    obtain ⟨hltj, hvj⟩ := List.getElem?_eq_some_iff.mp hgj
    have hget : shape.faces.get ⟨i.toNat, hlti⟩ = shape.faces.get ⟨j.toNat, hltj⟩ := by
      rw [List.get_eq_getElem, List.get_eq_getElem, hvi, hvj, hfg]
    have := (List.Nodup.get_inj_iff hnd).mp hget
    have : i.toNat = j.toNat := congrArg Fin.val this
    omega
  · intro e h0 hget
    exact (get_edge_by_id_ok_iff shape i e).mpr ⟨h0, hget⟩
  · exact get_edge_by_id_out_of_range shape i
  · intro hnd e d he hd hed
    obtain ⟨h0i, hgi⟩ := (get_edge_by_id_ok_iff shape i e).mp he
    obtain ⟨h0j, hgj⟩ := (get_edge_by_id_ok_iff shape j d).mp hd
    obtain ⟨hlti, hvi⟩ := List.getElem?_eq_some_iff.mp hgi
    obtain ⟨hltj, hvj⟩ := List.getElem?_eq_some_iff.mp hgj
    have hget : shape.edges.get ⟨i.toNat, hlti⟩ = shape.edges.get ⟨j.toNat, hltj⟩ := by
      rw [List.get_eq_getElem, List.get_eq_getElem, hvi, hvj, hed]
    have := (List.Nodup.get_inj_iff hnd).mp hget
    have : i.toNat = j.toNat := congrArg Fin.val this
    omega

/-- C3 witness: on the two-face fixture, id 0 resolves to the first face,
id 5 fails reporting the range `0-1`, and id -1 fails the same way. -/
theorem c3_ordinal_id_resolution_witness :
    BrepOperations.get_face_by_id cubeShape (some 0) = .ok 10 ∧
    BrepOperations.get_face_by_id cubeShape (some 5) =
      .error { msg := "Face ID 5 out of range (0-1)" } ∧
    BrepOperations.get_edge_by_id cubeShape (some (-1)) =
      .error { msg := "Edge ID -1 out of range (0-1)" } := by
  refine ⟨(c3_ordinal_id_resolution cubeShape 0 0).1.1 10 (by decide) (by decide), ?_, ?_⟩
  · have h := (c3_ordinal_id_resolution cubeShape 5 0).1.2.1 (by decide)
    simpa [BrepOperations.faceRangeMsg, cubeShape] using h
  · have h := (c3_ordinal_id_resolution cubeShape (-1) 0).2.2.1 (by decide)
    simpa [BrepOperations.edgeRangeMsg, cubeShape] using h

/-- C7: whenever the routed handler raises (in particular when a kernel step
— prism, fuse, fillet, chamfer or a boolean — reports not done), the endpoint
returns the 500 body carrying the full internal failure detail: the raised
exception's message and the raw execution trace. -/
theorem c7_failure_detail_disclosure (K : Kernel) (operation_type : String)
    (step_content : Option String) (parameters : Params) (e : Exc)
    (h1 : stepTruthy step_content = true)
    (h2 : route K operation_type (step_content.getD "") parameters = .exn e) :
    manipulate_brep K operation_type step_content parameters =
      .serverError e.msg (pythonTraceback e) := by
  simp [manipulate_brep, h1, h2]

/-- C7 witness: a fillet whose kernel builder reports not done produces the
500 body echoing the exception message and the trace. -/
theorem c7_failure_detail_disclosure_witness :
    manipulate_brep kernelFailFillet "fillet_edge" (some "CUBE") [("edge_id", PVal.int 0)] =
      .serverError "Failed to create fillet"
        (pythonTraceback { msg := "Failed to create fillet" }) :=
  c7_failure_detail_disclosure kernelFailFillet "fillet_edge" (some "CUBE")
    [("edge_id", PVal.int 0)] { msg := "Failed to create fillet" } (by decide) (by decide)

/-- C1 counterexample: a `fillet_edge` request supplying no `radius` succeeds
with `parameters_used` that does not contain `radius` at all — the declared
default `0.1` is applied internally but never echoed back. -/
theorem c1_counterexample :
    manipulate_brep kernelOK "fillet_edge" (some "CUBE") [("edge_id", PVal.int 0)] =
      .ok "OUT" "fillet_edge" [("edge_id", PVal.int 0)] ∧
    ([("edge_id", PVal.int 0)] : Params).lookup "radius" = none :=
  ⟨by decide, by decide⟩

/-- C1 (amended): for every manipulation request that succeeds, the
`parameters_used` field of the result is exactly the supplied parameter
mapping (and `operation_applied` the supplied kind); defaults for missing
parameters are applied internally but are not added to the echoed set. -/
theorem c1_parameters_echo (K : Kernel) (operation_type : String)
    (step_content : Option String) (parameters : Params)
    (m o : String) (p : Params)
    (h : manipulate_brep K operation_type step_content parameters = .ok m o p) :
    p = parameters ∧ o = operation_type := by
  unfold manipulate_brep at h
  split at h
  · split at h
    · exact Response.noConfusion h
    · next s hs =>
      injection h with h1 h2 h3
      exact ⟨h3.symm, h2.symm⟩
    · exact Response.noConfusion h
  · exact Response.noConfusion h

/-- C1 witness: the amended claim applied to a concrete successful request. -/
theorem c1_parameters_echo_witness :
    ([("edge_id", PVal.int 0)] : Params) = [("edge_id", PVal.int 0)] ∧
    "fillet_edge" = "fillet_edge" :=
  c1_parameters_echo kernelOK "fillet_edge" (some "CUBE") [("edge_id", PVal.int 0)]
    "OUT" "fillet_edge" [("edge_id", PVal.int 0)] (by decide)

/-- C4 counterexample: with empty solid text, an unknown operation kind is
answered with the empty-content rejection, not with the unknown-operation
rejection — the content screen runs before dispatch. -/
theorem c4_counterexample :
    "frobnicate" ∉ declaredOperations ∧
    manipulate_brep kernelOK "frobnicate" (some "") [] =
      .clientError "No STEP content provided" ∧
    manipulate_brep kernelOK "frobnicate" (some "") [] ≠
      .clientError ("Unknown operation type: " ++ "frobnicate") :=
  ⟨by decide, by decide, by decide⟩

/-- C4 (amended): for every operation kind outside the declared set and every
parameter mapping, provided the solid text is present and non-empty, dispatch
fails with the unknown-operation rejection, and the response is independent
of the kernel — no solid is decoded. -/
theorem c4_unknown_operation_dispatch (K K2 : Kernel) (operation_type : String)
    (step_content : Option String) (parameters : Params)
    (h1 : operation_type ∉ declaredOperations)
    (h2 : stepTruthy step_content = true) :
    manipulate_brep K operation_type step_content parameters =
      .clientError ("Unknown operation type: " ++ operation_type) ∧
    manipulate_brep K operation_type step_content parameters =
      manipulate_brep K2 operation_type step_content parameters := by
  simp only [declaredOperations, List.mem_cons, List.not_mem_nil, or_false] at h1
  push_neg at h1
  obtain ⟨n1, n2, n3, n4, n5, n6, n7, n8, n9⟩ := h1
  have hr : ∀ K3 : Kernel, route K3 operation_type (step_content.getD "") parameters = .unknown := by
    intro K3
    unfold route
    rw [if_neg n1, if_neg n2, if_neg n3, if_neg n4, if_neg n5, if_neg n6, if_neg n7,
      if_neg n8, if_neg n9]
  exact ⟨by simp [manipulate_brep, h2, hr K], by simp [manipulate_brep, h2, hr K, hr K2]⟩

/-- C4 witness: the amended claim applied to a concrete unknown kind with
non-empty solid text, on two kernels differing in every operation. -/
theorem c4_unknown_operation_dispatch_witness :
    manipulate_brep kernelOK "frobnicate" (some "CUBE") [] =
      .clientError ("Unknown operation type: " ++ "frobnicate") ∧
    manipulate_brep kernelOK "frobnicate" (some "CUBE") [] =
      manipulate_brep kernelNoDecode "frobnicate" (some "CUBE") [] :=
  c4_unknown_operation_dispatch kernelOK kernelNoDecode "frobnicate" (some "CUBE") []
    (by decide) (by decide)

/-- C5 counterexample: a decodable solid whose only edge (a valid edge id)
has an empty vertex traversal makes `extend_edge` raise instead of
succeeding: the handler checks the edge's vertices before its no-op return. -/
theorem c5_counterexample :
    kernelOK.decode "DEGEN" = some degenShape ∧
    BrepOperations.get_edge_by_id degenShape (some 0) = .ok { vertices := [] } ∧
    BrepManipulationService.extend_edge kernelOK "DEGEN" (some 0) [] =
      .error { msg := "Edge must have at least 2 vertices" } :=
  ⟨by decide, by decide, by decide⟩

/-- C5 (amended): for every decodable input solid and valid edge id whose
resolved edge has at least 2 vertices in its traversal, `extend_edge`
succeeds and returns the input shape unmodified, regardless of the `length`
and `both_directions` parameters; an edge with fewer than 2 vertices makes
the operation fail instead. -/
theorem c5_extend_edge_noop (K : Kernel) (step_content : String) (i : Int)
    (parameters : Params) (shape : Shape) (edge : Edge) (out : String)
    (length : Rat) (both_directions : Bool)
    (hdec : K.decode step_content = some shape)
    (hedge : BrepOperations.get_edge_by_id shape (some i) = .ok edge)
    (hv : 2 ≤ edge.vertices.length)
    (henc : K.encode shape = some out) :
    BrepOperations.extend_edge shape edge length both_directions = .ok shape ∧
    BrepManipulationService.extend_edge K step_content (some i) parameters = .ok out := by
  have hop : ∀ (l : Rat) (b : Bool), BrepOperations.extend_edge shape edge l b = .ok shape := by
    intro l b
    unfold BrepOperations.extend_edge
    rw [if_neg (by omega)]
  refine ⟨hop length both_directions, ?_⟩
  unfold BrepManipulationService.extend_edge
  simp [Bind.bind, Except.bind, BrepOperations.load_step_from_string, hdec, hedge,
    hop, BrepOperations.shape_to_step_string, henc]

/-- C5 witness: the amended claim applied to a concrete solid whose first
edge has two vertices. -/
theorem c5_extend_edge_noop_witness :
    BrepOperations.extend_edge cubeShape { vertices := [0, 1] } 7 true = .ok cubeShape ∧
    BrepManipulationService.extend_edge kernelOK "CUBE" (some 0) [] = .ok "OUT" :=
  c5_extend_edge_noop kernelOK "CUBE" 0 [] cubeShape { vertices := [0, 1] } "OUT" 7 true
    (by decide) (by decide) (by decide) (by decide)

/-- C6 counterexample: a `boolean_union` request with a present, non-empty
primary solid text but no `other_step_content` is not rejected as a
client-input failure: it fails as a 500 server error raised inside the
decode step, and only after the primary solid was decoded — the response
depends on the kernel's decoder, witnessing that a kernel call was
attempted. -/
theorem c6_counterexample :
    manipulate_brep kernelOK "boolean_union" (some "CUBE") [] =
      .serverError "write() argument must be str, not None"
        (pythonTraceback { msg := "write() argument must be str, not None" }) ∧
    manipulate_brep kernelOK "boolean_union" (some "CUBE") [] ≠
      manipulate_brep kernelNoDecode "boolean_union" (some "CUBE") [] :=
  ⟨by decide, by decide⟩

/-- C6 (amended): a missing or empty primary solid text is rejected with the
client-input failure before any kernel call, for every operation kind and
parameter mapping; but a missing secondary solid text for the three boolean
kinds is not pre-validated — the request fails as a server error raised
inside the decode step, after the primary decode was attempted. -/
theorem c6_missing_solid_text (K : Kernel) (operation_type bop : String)
    (parameters : Params) (s : String)
    (hb : bop ∈ booleanOperations)
    (hs : s ≠ "")
    (hsec : getStr? parameters "other_step_content" = none) :
    manipulate_brep K operation_type none parameters =
      .clientError "No STEP content provided" ∧
    manipulate_brep K operation_type (some "") parameters =
      .clientError "No STEP content provided" ∧
    (manipulate_brep K bop (some s) parameters).isServerError = true := by
  refine ⟨by simp [manipulate_brep, stepTruthy], by simp [manipulate_brep, stepTruthy], ?_⟩
  have hst : stepTruthy (some s) = true := by simp [stepTruthy, hs]
  have key : ∀ kind, ∃ e, BrepManipulationService.boolean_operation K s none kind = .error e := by
    intro kind
    cases hd : K.decode s with
    | none =>
      refine ⟨{ msg := "Failed to read STEP file content" }, ?_⟩
      simp [BrepManipulationService.boolean_operation, Bind.bind, Except.bind,
        BrepOperations.load_step_from_string, hd]
    | some sh =>
      refine ⟨{ msg := "write() argument must be str, not None" }, ?_⟩
      simp [BrepManipulationService.boolean_operation, Bind.bind, Except.bind,
        BrepOperations.load_step_from_string, hd]
  simp only [booleanOperations, List.mem_cons, List.not_mem_nil, or_false] at hb
  rcases hb with rfl | rfl | rfl
  · obtain ⟨e, he⟩ := key "union"
    simp [manipulate_brep, hst, route, hsec, he, routeOf, Response.isServerError]
  · obtain ⟨e, he⟩ := key "difference"
    simp [manipulate_brep, hst, route, hsec, he, routeOf, Response.isServerError]
  · obtain ⟨e, he⟩ := key "intersection"
    simp [manipulate_brep, hst, route, hsec, he, routeOf, Response.isServerError]

/-- C6 witness: the amended claim applied to concrete requests. -/
theorem c6_missing_solid_text_witness :
    manipulate_brep kernelOK "fillet_edge" none [] =
      .clientError "No STEP content provided" ∧
    manipulate_brep kernelOK "fillet_edge" (some "") [] =
      .clientError "No STEP content provided" ∧
    (manipulate_brep kernelOK "boolean_union" (some "CUBE") []).isServerError = true :=
  c6_missing_solid_text kernelOK "fillet_edge" "boolean_union" [] "CUBE"
    (by decide) (by decide) (by decide)

/-- C10: for every decodable solid the topology-info operation never fails
because of a measurement error: it returns the info record built from the
decoded shape; its face and edge entry ids are exactly the enumeration
positions `0..total-1`; each listed entry carries the per-element
measurements; and a failed area/centroid (length/centroid) measurement
yields `0` (`[0, 0, 0]`) rather than an error. -/
theorem c10_topology_measurement_defaults (K : Kernel) (step_content : String)
    (shape : Shape) (h : K.decode step_content = some shape) :
    BrepOperations.get_detailed_topology_info K step_content =
      .ok (BrepOperations.mkTopologyInfo K shape) ∧
    (BrepOperations.mkTopologyInfo K shape).faces.map BrepOperations.FaceInfo.id =
      List.range (BrepOperations.mkTopologyInfo K shape).total_faces ∧
    (BrepOperations.mkTopologyInfo K shape).edges.map BrepOperations.EdgeInfo.id =
      List.range (BrepOperations.mkTopologyInfo K shape).total_edges ∧
    (∀ n f, shape.faces[n]? = some f →
      (BrepOperations.mkTopologyInfo K shape).faces[n]? =
        some ({ id := n, area := BrepOperations.get_face_area_m K f,
                center := BrepOperations.get_face_center_m K f } :
              BrepOperations.FaceInfo)) ∧
    (∀ f, K.faceArea f = none → BrepOperations.get_face_area_m K f = 0) ∧
    (∀ f, K.faceCenter f = none → BrepOperations.get_face_center_m K f = (0, 0, 0)) ∧
    (∀ n e, shape.edges[n]? = some e →
      (BrepOperations.mkTopologyInfo K shape).edges[n]? =
        some ({ id := n, length := BrepOperations.get_edge_length_m K e,
                center := BrepOperations.get_edge_center_m K e } :
              BrepOperations.EdgeInfo)) ∧
    (∀ e, K.edgeLength e = none → BrepOperations.get_edge_length_m K e = 0) ∧
    (∀ e, K.edgeCenter e = none → BrepOperations.get_edge_center_m K e = (0, 0, 0)) := by
  refine ⟨?_, ?_, ?_, ?_, ?_, ?_, ?_, ?_, ?_⟩
  · unfold BrepOperations.get_detailed_topology_info
    simp [BrepOperations.load_step_from_string, h]
  · have h1 := List.enum_map_fst shape.faces
    unfold BrepOperations.mkTopologyInfo
    rw [List.map_map]
    exact h1
  · have h1 := List.enum_map_fst shape.edges
    unfold BrepOperations.mkTopologyInfo
    rw [List.map_map]
    exact h1
  · intro n f hget
    unfold BrepOperations.mkTopologyInfo
    simp only [List.getElem?_map, List.getElem?_enum, hget, Option.map_some']
  · intro f hf
    unfold BrepOperations.get_face_area_m
    rw [hf]
  · intro f hf
    unfold BrepOperations.get_face_center_m
    rw [hf]
  · intro n e hget
    unfold BrepOperations.mkTopologyInfo
    simp only [List.getElem?_map, List.getElem?_enum, hget, Option.map_some']
  · intro e he
    unfold BrepOperations.get_edge_length_m
    rw [he]
  · intro e he
    unfold BrepOperations.get_edge_center_m
    rw [he]

/-- C10 witness: the claim applied to a concrete decodable solid on a kernel
whose every measurement fails. -/
theorem c10_topology_measurement_defaults_witness :
    BrepOperations.get_detailed_topology_info kernelOK "CUBE" =
      .ok (BrepOperations.mkTopologyInfo kernelOK cubeShape) ∧
    BrepOperations.get_face_area_m kernelOK 10 = 0 :=
  ⟨(c10_topology_measurement_defaults kernelOK "CUBE" cubeShape (by decide)).1,
   (c10_topology_measurement_defaults kernelOK "CUBE" cubeShape (by decide)).2.2.2.2.1
      10 rfl⟩
